import Mathlib

/-!
# Backtrace.hpp: a shallow embedding

`src/Backtrace.hpp` wraps libbacktrace: `initialize` creates the process-wide
`backtrace_state` once, `getBacktrace(skip)` walks the native stack through
`backtrace_full` and turns every raw frame it is handed into a `StackFrame`.

libbacktrace and the C++ demangler are not part of the repository. They enter
the model as a `Platform` record: what `backtrace_create_state` answers, which
callbacks `backtrace_full` makes (as a list of events, in delivery order), and
what `abi::__cxa_demangle` answers. The two functions of the header, and the
three lambdas they register, are translated line by line. A call made at a call
site puts the frame of the callee on the native stack the walker sees
(`getBacktraceAt`); the overload `getBacktrace()` calls `getBacktrace(1)` from
inside its own frame (`getBacktrace0`).
-/

namespace Backtrace

/-! ## Data model -/

/-- A `backtrace_state*` value that is not null; `Option backtrace_state` is the
pointer, `none` being `nullptr`. -/
abbrev backtrace_state := Nat

/-- The record `struct StackFrame` (lines 18-22). -/
structure StackFrame where
  function : String
  filename : String
  lineno : Int
  deriving DecidableEq, Repr

/-- The arguments of one call of a `backtrace_full_callback`:
`(uintptr_t pc, const char* filename, int lineno, const char* function)`.
A null `const char*` is `none`. -/
structure RawFrame where
  pc : Nat
  filename : Option String
  lineno : Int
  function : Option String
  deriving DecidableEq, Repr

/-- What `abi::__cxa_demangle(function, nullptr, nullptr, &status)` hands back:
the status it stores and the text of the buffer it returns (read by the source
only when the status is 0). -/
structure Demangled where
  output : String
  status : Int
  deriving DecidableEq, Repr

/-- One callback made by `backtrace_full`: either the per-frame callback or the
error callback. -/
inductive WalkEvent where
  | frame (raw : RawFrame)
  | error (msg : String) (errnum : Int)
  deriving DecidableEq, Repr

/-- A call into libbacktrace, with its arguments (the callbacks and the data
pointer left out). -/
inductive PlatformCall where
  | create_state (filename : Option String) (threaded : Bool)
  | full (state : Option backtrace_state) (skip : Int)
  deriving DecidableEq, Repr

/-- The answer of `backtrace_create_state`: the errors it reports through the
error callback before returning, and the pointer it returns. -/
structure CreateOutcome where
  errors : List (String × Int)
  handle : Option backtrace_state
  deriving DecidableEq, Repr

/-- The external world of the header. Every libbacktrace answer may depend on
the calls made so far. -/
structure Platform where
  backtrace_create_state : List PlatformCall → Option String → Bool → CreateOutcome
  backtrace_full : List PlatformCall → Option backtrace_state → Int → List WalkEvent
  cxa_demangle : String → Demangled

/-- The state of the process the header can see or change: the static `state`
(line 15), the text written to `std::cerr`, and the trace of the calls made into
libbacktrace. -/
structure Process where
  state : Option backtrace_state
  cerr : String
  calls : List PlatformCall
  deriving DecidableEq, Repr

/-! ## Machine integers -/

/-- The largest `int`. -/
def INT_MAX : Int := 2147483647

/-- Addition of two `int`s, reduced to the 32-bit two-complement range. (C++
leaves the overflowing sum undefined; the properties on the skip depth are
stated for operands whose sum is in range.) -/
def int_add (a b : Int) : Int := (a + b + 2147483648) % 4294967296 - 2147483648

/-! ## `initialize` (lines 24-32) -/

/-- The lambda `onError` of `initialize` (lines 26-28). -/
def initialize_onError (msg : String) (errnum : Int) (s : Process) : Process :=
  { s with cerr := s.cerr ++ "Error #" ++ toString errnum
                    ++ " while setting up backtrace. Message: " ++ msg ++ "\n" }

/-- The function `initialize(char* filename)` (lines 24-32). -/
def initializeBacktrace (P : Platform) (filename : Option String) (s : Process) : Process :=
  if s.state = none then
    let r := P.backtrace_create_state s.calls filename true
    let s1 := { s with calls := s.calls ++ [PlatformCall.create_state filename true] }
    let s2 := r.errors.foldl (fun acc e => initialize_onError e.1 e.2 acc) s1
    { s2 with state := r.handle }
  else s

/-- A run of calls of `initialize`, one per hint, in order. -/
def initializeAll (P : Platform) (hints : List (Option String)) (s : Process) : Process :=
  hints.foldl (fun acc h => initializeBacktrace P h acc) s

/-! ## `getBacktrace` (lines 34-77) -/

/-- The lambda `onError` of `getBacktrace` (lines 35-37); `data` is the vector
behind the `void*`. -/
def getBacktrace_onError (data : List StackFrame) (msg : String) (errnum : Int)
    (s : Process) : List StackFrame × Process :=
  (data, { s with cerr := s.cerr ++ "Error #" ++ toString errnum
                            ++ " while getting backtrace. Message: " ++ msg ++ "\n" })

/-- The lambda `onStackFrame` of `getBacktrace` (lines 39-68): the value it
returns and the vector behind `data` afterwards. -/
def onStackFrame (P : Platform) (data : List StackFrame) (raw : RawFrame) :
    Int × List StackFrame :=
  if raw.function = none ∧ raw.filename = none then
    (0, data)
  else
    let function :=
      match raw.function with
      | none => "[UNKNOWN]"
      | some name =>
        let d := P.cxa_demangle name
        if d.status = 0 then d.output else name
    let filename :=
      match raw.filename with
      | none => "[UNKNOWN]"
      | some f => f
    (0, { function := function, filename := filename, lineno := raw.lineno } :: data)

/-- How `backtrace_full` drives the two callbacks: the events in order, stopping
as soon as the per-frame callback returns a non-zero value. -/
def deliver (P : Platform) :
    List WalkEvent → List StackFrame → Process → List StackFrame × Process
  | [], data, s => (data, s)
  | WalkEvent.error msg errnum :: rest, data, s =>
    let r := getBacktrace_onError data msg errnum s
    deliver P rest r.1 r.2
  | WalkEvent.frame raw :: rest, data, s =>
    let r := onStackFrame P data raw
    if r.1 = 0 then deliver P rest r.2 s else (r.2, s)

/-- The function `getBacktrace(int skip)` (lines 34-73): the vector returned and
the process afterwards. -/
def getBacktrace (P : Platform) (skip : Int) (s : Process) : List StackFrame × Process :=
  let depth := int_add skip 1
  let events := P.backtrace_full s.calls s.state depth
  deliver P events [] { s with calls := s.calls ++ [PlatformCall.full s.state depth] }

/-- A call of `getBacktrace(int skip)` made at a call site. `site` is the native
stack at the call site, innermost first; the call puts the frame `self` of
`getBacktrace(int)` on top of it, and the body runs against the platform as it
answers on that stack (`W` gives the platform for each native stack). -/
def getBacktraceAt (W : List RawFrame → Platform) (self : RawFrame) (site : List RawFrame)
    (skip : Int) (s : Process) : List StackFrame × Process :=
  getBacktrace (W (self :: site)) skip s

/-- The overload `getBacktrace()` (lines 75-77) called at a call site: the call
puts the frame `self0` of `getBacktrace()` on top of the native stack `site`, and
its body, `return getBacktrace(1);`, is a call of `getBacktrace(int)` made from
inside that frame. -/
def getBacktrace0 (W : List RawFrame → Platform) (self0 self : RawFrame)
    (site : List RawFrame) (s : Process) : List StackFrame × Process :=
  getBacktraceAt W self (self0 :: site) 1 s

/-! ## Vocabulary of the properties -/

/-- The raw frames among the events, in delivery order. -/
def walkedFrames : List WalkEvent → List RawFrame
  | [] => []
  | WalkEvent.frame raw :: rest => raw :: walkedFrames rest
  | WalkEvent.error _ _ :: rest => walkedFrames rest

/-- The (message, code) pairs of the errors among the events, in delivery order. -/
def walkedErrors : List WalkEvent → List (String × Int)
  | [] => []
  | WalkEvent.frame _ :: rest => walkedErrors rest
  | WalkEvent.error msg errnum :: rest => (msg, errnum) :: walkedErrors rest

/-- A raw frame carries a function name or a filename. -/
def hasInfo (raw : RawFrame) : Bool :=
  raw.function.isSome || raw.filename.isSome

/-- The events `getBacktrace(skip)` receives from the platform in process `s`. -/
def eventsOf (P : Platform) (skip : Int) (s : Process) : List WalkEvent :=
  P.backtrace_full s.calls s.state (int_add skip 1)

/-- Modelled from the spec: the walker `backtrace_full` of libbacktrace, which is
not in the repository. On a native stack listed innermost first, whose first
entry is the frame of the function that calls the walker, a walk "starting at
depth d" delivers the entries from position d on, one per-frame callback each,
and reports no error. -/
def stackWalker (stack : List RawFrame) :
    List PlatformCall → Option backtrace_state → Int → List WalkEvent :=
  fun _ _ depth => (stack.drop depth.toNat).map WalkEvent.frame

/-- The frame the per-frame callback emits for a raw frame, if it emits one:
what `onStackFrame` puts in front of an empty vector. -/
def resolved (P : Platform) (raw : RawFrame) : Option StackFrame :=
  (onStackFrame P [] raw).2.head?

/-- The frames emitted for a walk, in walk order. -/
def keptFrames (P : Platform) (walked : List RawFrame) : List StackFrame :=
  walked.filterMap (resolved P)

/-- The text the error callback of `getBacktrace` writes for a list of errors. -/
def walkErrorText : List (String × Int) → String
  | [] => ""
  | e :: rest =>
    "Error #" ++ toString e.2 ++ " while getting backtrace. Message: " ++ e.1 ++ "\n"
      ++ walkErrorText rest

/-- The text the error callback of `initialize` writes for a list of errors. -/
def setupErrorText : List (String × Int) → String
  | [] => ""
  | e :: rest =>
    "Error #" ++ toString e.2 ++ " while setting up backtrace. Message: " ++ e.1 ++ "\n"
      ++ setupErrorText rest

/-- A platform with its walker replaced by the walk of a given native stack. -/
def onStack (P : Platform) (stack : List RawFrame) : Platform :=
  { P with backtrace_full := stackWalker stack }

/-! ## Sample platforms, for concrete instances -/

/-- A demangler that knows one mangled name and rejects every other one with
status -2 (not a valid mangled name). -/
def sampleDemangle (name : String) : Demangled :=
  if name = "_Z1Cv" then { output := "C()", status := 0 } else { output := "", status := -2 }

/-- A native stack, innermost first: the frame of `getBacktrace` itself, `C()`,
a frame without debug information, `main`, and `_start` without a file. -/
def sampleStack : List RawFrame :=
  [ { pc := 4198710, filename := some "Backtrace.hpp", lineno := 71,
      function := some "_ZN9Backtrace12getBacktraceEi" },
    { pc := 4198800, filename := some "main.cpp", lineno := 5, function := some "_Z1Cv" },
    { pc := 4198900, filename := none, lineno := 0, function := none },
    { pc := 4199000, filename := some "main.cpp", lineno := 14, function := some "main" },
    { pc := 4199100, filename := none, lineno := 0, function := some "_start" } ]

/-- A platform whose state creation succeeds and whose walker walks
`sampleStack`. -/
def samplePlatform : Platform :=
  { backtrace_create_state := fun _ _ _ => { errors := [], handle := some 1 }
    backtrace_full := stackWalker sampleStack
    cxa_demangle := sampleDemangle }

/-- The raw frame of an activation of `getBacktrace(int)`: the innermost entry
of `sampleStack`. -/
def sampleSelf : RawFrame :=
  { pc := 4198710, filename := some "Backtrace.hpp", lineno := 71,
    function := some "_ZN9Backtrace12getBacktraceEi" }

/-- The raw frame of an activation of the overload `getBacktrace()`. -/
def sampleSelf0 : RawFrame :=
  { pc := 4198760, filename := some "Backtrace.hpp", lineno := 76,
    function := some "_ZN9Backtrace12getBacktraceEv" }

/-- The native stack at a call site inside `C()`: `sampleStack` without the frame
of `getBacktrace(int)`. -/
def sampleSite : List RawFrame :=
  [ { pc := 4198800, filename := some "main.cpp", lineno := 5, function := some "_Z1Cv" },
    { pc := 4198900, filename := none, lineno := 0, function := none },
    { pc := 4199000, filename := some "main.cpp", lineno := 14, function := some "main" },
    { pc := 4199100, filename := none, lineno := 0, function := some "_start" } ]

/-- A process whose session is initialized. -/
def sampleProcess : Process := { state := some 1, cerr := "", calls := [] }

/-- A process before any call of `initialize`. -/
def freshProcess : Process := { state := none, cerr := "", calls := [] }

/-- A walk that meets one frame of a source file that is itself named
`[UNKNOWN]`, for which the platform has no function name. -/
def sentinelFilePlatform : Platform :=
  { backtrace_create_state := fun _ _ _ => { errors := [], handle := some 1 }
    backtrace_full := fun _ _ _ =>
      [WalkEvent.frame
        { pc := 4198800, filename := some "[UNKNOWN]", lineno := 3, function := none }]
    cxa_demangle := sampleDemangle }

/-- A libbacktrace built without thread support: asked for a threaded state (as
line 30 does), `backtrace_create_state` reports an error and returns null, every
time. -/
def unthreadedPlatform : Platform :=
  { backtrace_create_state := fun _ _ threaded =>
      if threaded then
        { errors := [("backtrace library does not support threads", 0)], handle := none }
      else { errors := [], handle := some 1 }
    backtrace_full := fun _ _ _ => []
    cxa_demangle := sampleDemangle }

/-- A walk that reports an error between two frames. -/
def faultyWalkPlatform : Platform :=
  { backtrace_create_state := fun _ _ _ => { errors := [], handle := some 1 }
    backtrace_full := fun _ _ _ =>
      [ WalkEvent.frame
          { pc := 4198800, filename := some "main.cpp", lineno := 5, function := some "_Z1Cv" },
        WalkEvent.error "no debug info in ELF executable" (-1),
        WalkEvent.frame
          { pc := 4199000, filename := none, lineno := 0, function := some "main" } ]
    cxa_demangle := sampleDemangle }

/-! ## Relations between a raw frame and the frame resolved from it -/

/-- How a returned frame relates to the raw frame it was resolved from, as far
as sentinels, filename and line number go. -/
def sentinelRel (raw : RawFrame) (f : StackFrame) : Prop :=
  (raw.function = none → f.function = "[UNKNOWN]") ∧
  (raw.filename = none → f.filename = "[UNKNOWN]") ∧
  (∀ name, raw.filename = some name → f.filename = name) ∧
  f.lineno = raw.lineno

/-- How a returned frame relates to a raw frame whose function name is present:
the demangled name on status 0, the raw name on any other status, and filename
and line number fixed by the raw frame alone. -/
def demangleRel (P : Platform) (raw : RawFrame) (f : StackFrame) : Prop :=
  ∀ name, raw.function = some name →
    ((P.cxa_demangle name).status = 0 → f.function = (P.cxa_demangle name).output) ∧
    ((P.cxa_demangle name).status ≠ 0 → f.function = name) ∧
    f.filename = raw.filename.getD "[UNKNOWN]" ∧
    f.lineno = raw.lineno

/-- How a returned frame relates to the raw frame it was resolved from, as far
as the drop rule goes: the raw frame has a function name or a filename, and the
frame shows the sentinel in both fields only if the platform reported the
sentinel text itself, as the filename or as the function name (the demangled
one on status 0, the raw one otherwise). -/
def dropRel (P : Platform) (raw : RawFrame) (f : StackFrame) : Prop :=
  (raw.function ≠ none ∨ raw.filename ≠ none) ∧
  ((f.function = "[UNKNOWN]" ∧ f.filename = "[UNKNOWN]") →
    raw.filename = some "[UNKNOWN]" ∨
    ∃ name, raw.function = some name ∧
      (if (P.cxa_demangle name).status = 0 then (P.cxa_demangle name).output else name)
        = "[UNKNOWN]")

/-! ## Lemmas on the callbacks and the walk -/

theorem onStackFrame_fst (P : Platform) (data : List StackFrame) (raw : RawFrame) :
    (onStackFrame P data raw).1 = 0 := by
  unfold onStackFrame
  split <;> rfl

theorem onStackFrame_snd (P : Platform) (data : List StackFrame) (raw : RawFrame) :
    (onStackFrame P data raw).2 = (resolved P raw).toList ++ data := by
  unfold resolved onStackFrame
  split <;> rfl

theorem deliver_fst (P : Platform) (events : List WalkEvent) :
    ∀ (data : List StackFrame) (s : Process),
      (deliver P events data s).1 = (keptFrames P (walkedFrames events)).reverse ++ data := by
  induction events with
  | nil => intro data s; simp [deliver, walkedFrames, keptFrames]
  | cons e rest ih =>
    intro data s
    cases e with
    | error msg errnum =>
      simp only [deliver, walkedFrames, getBacktrace_onError]
      exact ih _ _
    | frame raw =>
      simp only [deliver, walkedFrames, onStackFrame_fst, if_true, onStackFrame_snd]
      rw [ih]
      unfold keptFrames
      cases h : resolved P raw <;> simp [List.filterMap_cons, h]

theorem getBacktrace_fst (P : Platform) (skip : Int) (s : Process) :
    (getBacktrace P skip s).1 = (keptFrames P (walkedFrames (eventsOf P skip s))).reverse := by
  simp [getBacktrace, eventsOf, deliver_fst]

theorem deliver_snd (P : Platform) (events : List WalkEvent) :
    ∀ (data : List StackFrame) (s : Process),
      (deliver P events data s).2 =
        { s with cerr := s.cerr ++ walkErrorText (walkedErrors events) } := by
  induction events with
  | nil => intro data s; simp [deliver, walkedErrors, walkErrorText]
  | cons e rest ih =>
    intro data s
    cases e with
    | error msg errnum =>
      simp only [deliver, walkedErrors, walkErrorText, getBacktrace_onError]
      rw [ih]
      simp [String.append_assoc]
    | frame raw =>
      simp only [deliver, walkedErrors, onStackFrame_fst, if_true]
      exact ih _ _

theorem resolved_eq_none_iff (P : Platform) (raw : RawFrame) :
    resolved P raw = none ↔ hasInfo raw = false := by
  rcases raw with ⟨pc, fn, ln, fu⟩
  cases fn <;> cases fu <;> simp [resolved, onStackFrame, hasInfo]

theorem keptFrames_length (P : Platform) (walked : List RawFrame) :
    (keptFrames P walked).length = walked.countP hasInfo := by
  induction walked with
  | nil => rfl
  | cons raw rest ih =>
    unfold keptFrames at ih ⊢
    cases h : resolved P raw with
    | none =>
      have hi := (resolved_eq_none_iff P raw).1 h
      simp [List.filterMap_cons, h, hi, ih]
    | some f =>
      have hi : hasInfo raw = true := by
        cases hh : hasInfo raw
        · rw [(resolved_eq_none_iff P raw).2 hh] at h; cases h
        · rfl
      simp [List.filterMap_cons, h, hi, ih]

/-! ## C1: the result is the walk in reverse -/

/-- C1: the list returned by `getBacktrace` is the reverse of the kept frames in
walk order. The frame of the first-walked kept raw frame is its last element,
the frame of the last-walked one is its first element, and of two kept frames
the one walked earlier (index `i < j` in walk order) stands later in the
result (at `n - 1 - i`, after `n - 1 - j`). -/
theorem getBacktrace_reverses_walk (P : Platform) (skip : Int) (s : Process) :
    (getBacktrace P skip s).1 = (keptFrames P (walkedFrames (eventsOf P skip s))).reverse ∧
    (getBacktrace P skip s).1.getLast? = (keptFrames P (walkedFrames (eventsOf P skip s))).head? ∧
    (getBacktrace P skip s).1.head? = (keptFrames P (walkedFrames (eventsOf P skip s))).getLast? ∧
    ∀ i j : Nat, i < j → j < (keptFrames P (walkedFrames (eventsOf P skip s))).length →
      (getBacktrace P skip s).1[(keptFrames P (walkedFrames (eventsOf P skip s))).length - 1 - i]?
          = (keptFrames P (walkedFrames (eventsOf P skip s)))[i]? ∧
      (getBacktrace P skip s).1[(keptFrames P (walkedFrames (eventsOf P skip s))).length - 1 - j]?
          = (keptFrames P (walkedFrames (eventsOf P skip s)))[j]? ∧
      (keptFrames P (walkedFrames (eventsOf P skip s))).length - 1 - j
          < (keptFrames P (walkedFrames (eventsOf P skip s))).length - 1 - i := by
  rw [getBacktrace_fst]
  generalize keptFrames P (walkedFrames (eventsOf P skip s)) = kept
  refine ⟨rfl, ?_, ?_, ?_⟩
  · simp
  · simp
  · intro i j hij hj
    have hi : i < kept.length := Nat.lt_trans hij hj
    refine ⟨?_, ?_, ?_⟩
    · rw [List.getElem?_reverse (by omega)]
      congr 1
      omega
    · rw [List.getElem?_reverse (by omega)]
      congr 1
      omega
    · omega

/-- C1 on the sample stack with skip 0: the walk meets `C()`, then `main`, then
`_start`, and the result lists them in the opposite order. -/
theorem getBacktrace_reverses_walk_witness :
    keptFrames samplePlatform (walkedFrames (eventsOf samplePlatform 0 sampleProcess))
      = [ { function := "C()", filename := "main.cpp", lineno := 5 },
          { function := "main", filename := "main.cpp", lineno := 14 },
          { function := "_start", filename := "[UNKNOWN]", lineno := 0 } ] ∧
    (getBacktrace samplePlatform 0 sampleProcess).1
      = [ { function := "_start", filename := "[UNKNOWN]", lineno := 0 },
          { function := "main", filename := "main.cpp", lineno := 14 },
          { function := "C()", filename := "main.cpp", lineno := 5 } ] ∧
    (getBacktrace samplePlatform 0 sampleProcess).1
      = (keptFrames samplePlatform
          (walkedFrames (eventsOf samplePlatform 0 sampleProcess))).reverse :=
  ⟨by decide, by decide, (getBacktrace_reverses_walk samplePlatform 0 sampleProcess).1⟩

/-! ## C2: which raw frames are emitted -/

/-- C2: the per-frame callback always returns 0 and the walk goes on with the
next event; it leaves the vector as it was when the raw frame has neither a
function name nor a filename, and puts exactly one frame in front of it
otherwise. So the length of the result of `getBacktrace` is the number of walked
raw frames that have a function name or a filename. -/
theorem getBacktrace_emits_iff_info (P : Platform) (skip : Int) (s : Process) :
    (∀ (data : List StackFrame) (raw : RawFrame),
      (onStackFrame P data raw).1 = 0 ∧
      ((raw.function = none ∧ raw.filename = none) → (onStackFrame P data raw).2 = data) ∧
      (¬ (raw.function = none ∧ raw.filename = none) →
        ∃ f, (onStackFrame P data raw).2 = f :: data)) ∧
    (∀ (raw : RawFrame) (rest : List WalkEvent) (data : List StackFrame) (t : Process),
      deliver P (WalkEvent.frame raw :: rest) data t
        = deliver P rest (onStackFrame P data raw).2 t) ∧
    (getBacktrace P skip s).1.length
      = (walkedFrames (eventsOf P skip s)).countP
          (fun raw => raw.function.isSome || raw.filename.isSome) := by
  refine ⟨?_, ?_, ?_⟩
  · intro data raw
    refine ⟨onStackFrame_fst P data raw, ?_, ?_⟩
    · intro h
      simp [onStackFrame, h]
    · intro h
      simp only [onStackFrame, if_neg h]
      exact ⟨_, rfl⟩
  · intro raw rest data t
    simp [deliver, onStackFrame_fst]
  · rw [getBacktrace_fst, List.length_reverse, keptFrames_length]
    rfl

/-- C2 on the sample stack with skip 0: four raw frames are walked, one of them
without function name and filename, and the result has three frames. -/
theorem getBacktrace_emits_iff_info_witness :
    (walkedFrames (eventsOf samplePlatform 0 sampleProcess)).length = 4 ∧
    (walkedFrames (eventsOf samplePlatform 0 sampleProcess)).countP
      (fun raw => raw.function.isSome || raw.filename.isSome) = 3 ∧
    (getBacktrace samplePlatform 0 sampleProcess).1.length
      = (walkedFrames (eventsOf samplePlatform 0 sampleProcess)).countP
          (fun raw => raw.function.isSome || raw.filename.isSome) :=
  ⟨by decide, by decide, (getBacktrace_emits_iff_info samplePlatform 0 sampleProcess).2.2⟩

/-! ## Lemmas relating the result to the walked raw frames -/

theorem resolved_some (P : Platform) (raw : RawFrame) (h : hasInfo raw = true) :
    resolved P raw = some
      { function :=
          match raw.function with
          | none => "[UNKNOWN]"
          | some name =>
            if (P.cxa_demangle name).status = 0 then (P.cxa_demangle name).output else name
        filename :=
          match raw.filename with
          | none => "[UNKNOWN]"
          | some f => f
        lineno := raw.lineno } := by
  rcases raw with ⟨pc, fn, ln, fu⟩
  cases fn <;> cases fu <;> simp_all [resolved, onStackFrame, hasInfo]

theorem forall₂_kept (P : Platform) (R : RawFrame → StackFrame → Prop)
    (hR : ∀ raw f, hasInfo raw = true → resolved P raw = some f → R raw f)
    (walked : List RawFrame) :
    List.Forall₂ R (walked.filter hasInfo) (keptFrames P walked) := by
  induction walked with
  | nil => exact List.Forall₂.nil
  | cons raw rest ih =>
    unfold keptFrames at ih ⊢
    cases hi : hasInfo raw with
    | false =>
      have hn := (resolved_eq_none_iff P raw).2 hi
      simpa [List.filter_cons, hi, List.filterMap_cons, hn] using ih
    | true =>
      have hs := resolved_some P raw hi
      rw [List.filter_cons, List.filterMap_cons, hs]
      simp only [hi, if_true]
      exact List.Forall₂.cons (hR raw _ hi hs) ih

theorem forall₂_result (P : Platform) (R : RawFrame → StackFrame → Prop)
    (hR : ∀ raw f, hasInfo raw = true → resolved P raw = some f → R raw f)
    (skip : Int) (s : Process) :
    List.Forall₂ R ((walkedFrames (eventsOf P skip s)).filter hasInfo).reverse
      (getBacktrace P skip s).1 := by
  rw [getBacktrace_fst]
  exact List.forall₂_reverse_iff.2 (forall₂_kept P R hR _)

/-! ## C3: sentinels, filename and line number -/

/-- C3: the frames of the result of `getBacktrace` match, one for one and in
reverse walk order, the walked raw frames that have a function name or a
filename, and each such pair satisfies: no function symbol reported gives
`function == "[UNKNOWN]"`, no file reported gives `filename == "[UNKNOWN]"`, a
reported file is copied unchanged, and `lineno` is the reported line number. -/
theorem getBacktrace_sentinels (P : Platform) (skip : Int) (s : Process) :
    List.Forall₂ sentinelRel
      ((walkedFrames (eventsOf P skip s)).filter
        (fun raw => raw.function.isSome || raw.filename.isSome)).reverse
      (getBacktrace P skip s).1 := by
  refine forall₂_result P sentinelRel ?_ skip s
  intro raw f hi hs
  rw [resolved_some P raw hi] at hs
  cases hs
  rcases raw with ⟨pc, fn, ln, fu⟩
  refine ⟨?_, ?_, ?_, rfl⟩
  · intro h; simp only at h; subst h; rfl
  · intro h; simp only at h; subst h; rfl
  · intro name h; simp only at h; subst h; rfl

/-- C3 on the sample stack with skip 0: three frames are returned, matched with
the three raw frames that carry information; `_start`, reported without a file,
comes back with the sentinel as filename. -/
theorem getBacktrace_sentinels_witness :
    ((walkedFrames (eventsOf samplePlatform 0 sampleProcess)).filter
        (fun raw => raw.function.isSome || raw.filename.isSome)).reverse.length = 3 ∧
    (getBacktrace samplePlatform 0 sampleProcess).1.head?
      = some { function := "_start", filename := "[UNKNOWN]", lineno := 0 } ∧
    List.Forall₂ sentinelRel
      ((walkedFrames (eventsOf samplePlatform 0 sampleProcess)).filter
        (fun raw => raw.function.isSome || raw.filename.isSome)).reverse
      (getBacktrace samplePlatform 0 sampleProcess).1 :=
  ⟨by decide, by decide, getBacktrace_sentinels samplePlatform 0 sampleProcess⟩

/-! ## C4: demangling -/

/-- C4: for a raw frame with a function name the per-frame callback always puts
one frame in front of the vector, whatever the demangler answers; its `function`
is the demangled name when the status is 0 and the raw name otherwise, and its
`filename` and `lineno` are those of the raw frame, the demangler having no part
in them. The same holds of every frame of the result of `getBacktrace` against
the raw frame it was resolved from. -/
theorem getBacktrace_demangle_fallback (P : Platform) (skip : Int) (s : Process) :
    (∀ (data : List StackFrame) (raw : RawFrame) (name : String),
      raw.function = some name →
        ∃ f, onStackFrame P data raw = (0, f :: data) ∧
          ((P.cxa_demangle name).status = 0 → f.function = (P.cxa_demangle name).output) ∧
          ((P.cxa_demangle name).status ≠ 0 → f.function = name) ∧
          f.filename = raw.filename.getD "[UNKNOWN]" ∧
          f.lineno = raw.lineno) ∧
    List.Forall₂ (demangleRel P)
      ((walkedFrames (eventsOf P skip s)).filter
        (fun raw => raw.function.isSome || raw.filename.isSome)).reverse
      (getBacktrace P skip s).1 := by
  constructor
  · intro data raw name h
    rcases raw with ⟨pc, fn, ln, fu⟩
    simp only at h
    subst h
    refine ⟨{ function := if (P.cxa_demangle name).status = 0
                            then (P.cxa_demangle name).output else name
              filename := fn.getD "[UNKNOWN]"
              lineno := ln }, ?_, ?_, ?_, ?_, ?_⟩
    · cases fn <;> simp [onStackFrame]
    · intro h0; simp [h0]
    · intro h0; simp [h0]
    · cases fn <;> rfl
    · rfl
  · refine forall₂_result P (demangleRel P) ?_ skip s
    intro raw f hi hs
    rw [resolved_some P raw hi] at hs
    cases hs
    rcases raw with ⟨pc, fn, ln, fu⟩
    intro name h
    simp only at h
    subst h
    refine ⟨?_, ?_, ?_, rfl⟩
    · intro h0; simp [h0]
    · intro h0; simp [h0]
    · cases fn <;> rfl

/-- C4 on the sample platform: `main` is rejected by the demangler with status
-2 and comes back under its raw name, with file and line kept; `_Z1Cv` is
demangled to `C()`. -/
theorem getBacktrace_demangle_fallback_witness :
    (sampleDemangle "main").status = -2 ∧
    onStackFrame samplePlatform []
        { pc := 4199000, filename := some "main.cpp", lineno := 14, function := some "main" }
      = (0, [{ function := "main", filename := "main.cpp", lineno := 14 }]) ∧
    onStackFrame samplePlatform []
        { pc := 4198800, filename := some "main.cpp", lineno := 5, function := some "_Z1Cv" }
      = (0, [{ function := "C()", filename := "main.cpp", lineno := 5 }]) ∧
    List.Forall₂ (demangleRel samplePlatform)
      ((walkedFrames (eventsOf samplePlatform 0 sampleProcess)).filter
        (fun raw => raw.function.isSome || raw.filename.isSome)).reverse
      (getBacktrace samplePlatform 0 sampleProcess).1 :=
  ⟨by decide, by decide, by decide,
    (getBacktrace_demangle_fallback samplePlatform 0 sampleProcess).2⟩

/-! ## C9: frames with both sentinels -/

/-- C9, as stated, fails: a frame of a source file named `[UNKNOWN]` for which
no function name is reported is kept, and comes back with the sentinel text in
both fields. -/
theorem getBacktrace_both_unknown_counterexample :
    ¬ (∀ f ∈ (getBacktrace sentinelFilePlatform 0 sampleProcess).1,
        ¬ (f.function = "[UNKNOWN]" ∧ f.filename = "[UNKNOWN]")) := by
  intro h
  exact h { function := "[UNKNOWN]", filename := "[UNKNOWN]", lineno := 3 }
    (by decide) ⟨rfl, rfl⟩

/-- C9, amended: every frame of the result of `getBacktrace` is resolved from a
walked raw frame that has a function name or a filename, and it has
`function == "[UNKNOWN]"` together with `filename == "[UNKNOWN]"` only when the
platform reported the text `[UNKNOWN]` itself for that raw frame. -/
theorem getBacktrace_drop_rule (P : Platform) (skip : Int) (s : Process) :
    List.Forall₂ (dropRel P)
      ((walkedFrames (eventsOf P skip s)).filter
        (fun raw => raw.function.isSome || raw.filename.isSome)).reverse
      (getBacktrace P skip s).1 := by
  refine forall₂_result P (dropRel P) ?_ skip s
  intro raw f hi hs
  rw [resolved_some P raw hi] at hs
  cases hs
  rcases raw with ⟨pc, fn, ln, fu⟩
  cases fn <;> cases fu <;> simp_all [dropRel, hasInfo]

/-- C9, amended, on the sample stack: three frames come back, none resolved from
the raw frame without information, and none with both sentinels. -/
theorem getBacktrace_drop_rule_witness :
    (getBacktrace samplePlatform 0 sampleProcess).1.length = 3 ∧
    (∀ f ∈ (getBacktrace samplePlatform 0 sampleProcess).1,
        ¬ (f.function = "[UNKNOWN]" ∧ f.filename = "[UNKNOWN]")) ∧
    List.Forall₂ (dropRel samplePlatform)
      ((walkedFrames (eventsOf samplePlatform 0 sampleProcess)).filter
        (fun raw => raw.function.isSome || raw.filename.isSome)).reverse
      (getBacktrace samplePlatform 0 sampleProcess).1 :=
  ⟨by decide, by decide, getBacktrace_drop_rule samplePlatform 0 sampleProcess⟩

/-! ## Lemmas on `initialize` -/

theorem foldl_onError (errors : List (String × Int)) :
    ∀ s : Process,
      errors.foldl (fun acc e => initialize_onError e.1 e.2 acc) s
        = { s with cerr := s.cerr ++ setupErrorText errors } := by
  induction errors with
  | nil => intro s; simp [setupErrorText]
  | cons e rest ih =>
    intro s
    rw [List.foldl_cons, ih]
    simp [initialize_onError, setupErrorText, String.append_assoc]

theorem initializeBacktrace_of_null (P : Platform) (filename : Option String) (s : Process)
    (h : s.state = none) :
    initializeBacktrace P filename s =
      { state := (P.backtrace_create_state s.calls filename true).handle
        cerr := s.cerr ++ setupErrorText (P.backtrace_create_state s.calls filename true).errors
        calls := s.calls ++ [PlatformCall.create_state filename true] } := by
  simp [initializeBacktrace, h, foldl_onError]

theorem initializeBacktrace_of_set (P : Platform) (filename : Option String) (s : Process)
    (h : s.state ≠ none) :
    initializeBacktrace P filename s = s := by
  simp [initializeBacktrace, h]

theorem initializeAll_of_set (P : Platform) (hints : List (Option String)) :
    ∀ s : Process, s.state ≠ none → initializeAll P hints s = s := by
  induction hints with
  | nil => intro s _; rfl
  | cons h rest ih =>
    intro s hs
    show initializeAll P rest (initializeBacktrace P h s) = s
    rw [initializeBacktrace_of_set P h s hs]
    exact ih s hs

/-! ## C7: `initialize` after a successful `initialize` -/

/-- C7: if a call of `initialize` leaves the handle non-null, every later call,
with any hint (and whatever the platform would answer), returns the process as
it found it: the handle, the text on `std::cerr` and the trace of platform calls
are unchanged, so no further state is requested; the same holds of any run of
later calls. -/
theorem initialize_idempotent_after_success (P : Platform) (h1 : Option String) (s : Process)
    (hok : (initializeBacktrace P h1 s).state ≠ none) :
    (∀ (Q : Platform) (h2 : Option String),
      initializeBacktrace Q h2 (initializeBacktrace P h1 s) = initializeBacktrace P h1 s) ∧
    (∀ (Q : Platform) (hints : List (Option String)),
      initializeAll Q hints (initializeBacktrace P h1 s) = initializeBacktrace P h1 s) :=
  ⟨fun Q h2 => initializeBacktrace_of_set Q h2 _ hok,
   fun Q hints => initializeAll_of_set Q hints _ hok⟩

/-- C7 on the sample platform: the first call creates the state, and a second
call, asked of a platform that would fail, changes nothing. -/
theorem initialize_idempotent_after_success_witness :
    (initializeBacktrace samplePlatform (some "a.out") freshProcess).state ≠ none ∧
    initializeBacktrace samplePlatform (some "a.out") freshProcess
      = { state := some 1, cerr := "",
          calls := [PlatformCall.create_state (some "a.out") true] } ∧
    initializeBacktrace unthreadedPlatform (some "b.out")
        (initializeBacktrace samplePlatform (some "a.out") freshProcess)
      = initializeBacktrace samplePlatform (some "a.out") freshProcess :=
  ⟨by decide, by decide,
   (initialize_idempotent_after_success samplePlatform (some "a.out") freshProcess
      (by decide)).1 unthreadedPlatform (some "b.out")⟩

/-! ## C8: runs of `initialize` -/

/-- C8, as stated, fails: where state creation returns null, the second call of
`initialize` finds the handle null again, asks the platform a second time and
writes a second error line, so two calls do not leave the process as one call
does. -/
theorem initialize_once_counterexample :
    ¬ (initializeAll unthreadedPlatform [some "a.out", some "a.out"] freshProcess
        = initializeBacktrace unthreadedPlatform (some "a.out") freshProcess) ∧
    (initializeAll unthreadedPlatform [some "a.out", some "a.out"] freshProcess).calls
      = [PlatformCall.create_state (some "a.out") true,
         PlatformCall.create_state (some "a.out") true] := by
  constructor <;> decide

/-- C8, amended: a call of `initialize` asks the platform for a state exactly
when it finds the handle null (once, with its hint and `threaded = true`), and
is a no-op otherwise. So in a run of calls started with a null handle, if the
state creation of the first call returns a non-null handle, the first call is
the only one that asks the platform, and the process after the whole run is the
process after the first call alone, whatever the later hints. -/
theorem initialize_once_created (P : Platform) (h : Option String)
    (hints : List (Option String)) (s : Process)
    (hs : s.state = none)
    (hok : (P.backtrace_create_state s.calls h true).handle ≠ none) :
    (∀ (t : Process) (g : Option String),
      (initializeBacktrace P g t).calls
        = if t.state = none then t.calls ++ [PlatformCall.create_state g true] else t.calls) ∧
    (∀ (t : Process) (g : Option String), t.state ≠ none → initializeBacktrace P g t = t) ∧
    initializeAll P (h :: hints) s = initializeBacktrace P h s ∧
    (initializeAll P (h :: hints) s).calls = s.calls ++ [PlatformCall.create_state h true] ∧
    (initializeAll P (h :: hints) s).state = (P.backtrace_create_state s.calls h true).handle := by
  have hrun : initializeAll P (h :: hints) s = initializeBacktrace P h s := by
    show initializeAll P hints (initializeBacktrace P h s) = initializeBacktrace P h s
    apply initializeAll_of_set
    rw [initializeBacktrace_of_null P h s hs]
    exact hok
  refine ⟨?_, ?_, hrun, ?_, ?_⟩
  · intro t g
    by_cases ht : t.state = none
    · rw [initializeBacktrace_of_null P g t ht, if_pos ht]
    · rw [initializeBacktrace_of_set P g t ht, if_neg ht]
  · intro t g ht
    exact initializeBacktrace_of_set P g t ht
  · rw [hrun, initializeBacktrace_of_null P h s hs]
  · rw [hrun, initializeBacktrace_of_null P h s hs]

/-- C8, amended, on the sample platform: three calls with three hints leave one
request in the trace, that of the first call. -/
theorem initialize_once_created_witness :
    initializeAll samplePlatform [some "a.out", none, some "b.out"] freshProcess
      = { state := some 1, cerr := "",
          calls := [PlatformCall.create_state (some "a.out") true] } ∧
    initializeAll samplePlatform [some "a.out", none, some "b.out"] freshProcess
      = initializeBacktrace samplePlatform (some "a.out") freshProcess :=
  ⟨by decide,
   (initialize_once_created samplePlatform (some "a.out") [none, some "b.out"] freshProcess
      (by decide) (by decide)).2.2.1⟩

/-! ## C10: the error callbacks -/

/-- C10: for every code and message, the error callback of `initialize` appends
to `std::cerr` the line `Error #<code> while setting up backtrace. Message:
<message>`, and that of `getBacktrace` the line `Error #<code> while getting
backtrace. Message: <message>`, the code in decimal and the message as given;
the handle, the trace of platform calls and the frames gathered so far are left
as they were. Hence `getBacktrace` leaves the handle alone and writes exactly one
such line per error the walker reports, in order, and an `initialize` that finds
the handle null writes one per error of the state creation and stores the
pointer the platform returned. -/
theorem error_callbacks_write_line (P : Platform) (msg : String) (errnum : Int)
    (data : List StackFrame) (s : Process) (skip : Int) (hint : Option String) :
    (initialize_onError msg errnum s).cerr
      = s.cerr ++ ("Error #" ++ toString errnum
          ++ " while setting up backtrace. Message: " ++ msg ++ "\n") ∧
    (initialize_onError msg errnum s).state = s.state ∧
    (initialize_onError msg errnum s).calls = s.calls ∧
    (getBacktrace_onError data msg errnum s).2.cerr
      = s.cerr ++ ("Error #" ++ toString errnum
          ++ " while getting backtrace. Message: " ++ msg ++ "\n") ∧
    (getBacktrace_onError data msg errnum s).2.state = s.state ∧
    (getBacktrace_onError data msg errnum s).2.calls = s.calls ∧
    (getBacktrace_onError data msg errnum s).1 = data ∧
    (getBacktrace P skip s).2.state = s.state ∧
    (getBacktrace P skip s).2.cerr
      = s.cerr ++ walkErrorText (walkedErrors (eventsOf P skip s)) ∧
    (s.state = none →
      (initializeBacktrace P hint s).cerr
        = s.cerr ++ setupErrorText (P.backtrace_create_state s.calls hint true).errors ∧
      (initializeBacktrace P hint s).state
        = (P.backtrace_create_state s.calls hint true).handle) := by
  refine ⟨?_, rfl, rfl, ?_, rfl, rfl, rfl, ?_, ?_, ?_⟩
  · simp [initialize_onError, String.append_assoc]
  · simp [getBacktrace_onError, String.append_assoc]
  · simp [getBacktrace, deliver_snd]
  · simp [getBacktrace, deliver_snd, eventsOf]
  · intro hs
    rw [initializeBacktrace_of_null P hint s hs]
    exact ⟨rfl, rfl⟩

/-- C10 on concrete errors: the two lines as text, and their place in a failed
`initialize` and in a walk that reports an error between two frames. -/
theorem error_callbacks_write_line_witness :
    (initialize_onError "backtrace library does not support threads" 0 freshProcess).cerr
      = "Error #0 while setting up backtrace. Message: backtrace library does not support threads\n" ∧
    (getBacktrace_onError [] "no debug info in ELF executable" (-1) sampleProcess).2.cerr
      = "Error #-1 while getting backtrace. Message: no debug info in ELF executable\n" ∧
    initializeBacktrace unthreadedPlatform (some "a.out") freshProcess
      = { state := none,
          cerr := "Error #0 while setting up backtrace. Message: backtrace library does not support threads\n",
          calls := [PlatformCall.create_state (some "a.out") true] } ∧
    getBacktrace faultyWalkPlatform 0 sampleProcess
      = ([ { function := "main", filename := "[UNKNOWN]", lineno := 0 },
           { function := "C()", filename := "main.cpp", lineno := 5 } ],
         { state := some 1,
           cerr := "Error #-1 while getting backtrace. Message: no debug info in ELF executable\n",
           calls := [PlatformCall.full (some 1) 1] }) ∧
    (getBacktrace faultyWalkPlatform 0 sampleProcess).2.cerr
      = sampleProcess.cerr
          ++ walkErrorText (walkedErrors (eventsOf faultyWalkPlatform 0 sampleProcess)) :=
  ⟨by decide, by decide, by decide, by decide,
   (error_callbacks_write_line faultyWalkPlatform "" 0 [] sampleProcess 0 none).2.2.2.2.2.2.2.2.1⟩

/-! ## C5: the depth passed to the walker -/

theorem int_add_one (skip : Int) (h0 : 0 ≤ skip) (h1 : skip < INT_MAX) :
    int_add skip 1 = skip + 1 := by
  unfold int_add
  unfold INT_MAX at h1
  omega

theorem keptFrames_onStack (P : Platform) (stack walked : List RawFrame) :
    keptFrames (onStack P stack) walked = keptFrames P walked := rfl

theorem walkedFrames_map_frame (l : List RawFrame) :
    walkedFrames (l.map WalkEvent.frame) = l := by
  induction l with
  | nil => rfl
  | cons a rest ih => simp [walkedFrames, ih]

theorem getBacktrace_onStack (P : Platform) (stack : List RawFrame) (skip : Int)
    (s : Process) (h0 : 0 ≤ skip) (h1 : skip < INT_MAX) :
    (getBacktrace (onStack P stack) skip s).1
      = (keptFrames P (stack.drop (skip.toNat + 1))).reverse := by
  rw [getBacktrace_fst, keptFrames_onStack]
  have hd : (skip + 1).toNat = skip.toNat + 1 := by omega
  show (keptFrames P (walkedFrames
      ((stack.drop (int_add skip 1).toNat).map WalkEvent.frame))).reverse = _
  rw [walkedFrames_map_frame, int_add_one skip h0 h1, hd]

/-- C5, as stated, fails in its last part: called at the same call site (same
session, same native stack), the overload `getBacktrace()` does not return what
`getBacktrace(1)` returns. Its own frame is one more frame on the stack, so the
walk it starts at depth 2 begins at the caller: on the sample site it returns
`C()` as last frame, which `getBacktrace(1)` leaves out, and it returns what
`getBacktrace(0)` returns. -/
theorem getBacktrace_overload_counterexample :
    ¬ ((getBacktrace0 (onStack samplePlatform) sampleSelf0 sampleSelf sampleSite sampleProcess).1
        = (getBacktraceAt (onStack samplePlatform) sampleSelf sampleSite 1 sampleProcess).1) ∧
    (getBacktrace0 (onStack samplePlatform) sampleSelf0 sampleSelf sampleSite sampleProcess).1
      = [ { function := "_start", filename := "[UNKNOWN]", lineno := 0 },
          { function := "main", filename := "main.cpp", lineno := 14 },
          { function := "C()", filename := "main.cpp", lineno := 5 } ] ∧
    (getBacktraceAt (onStack samplePlatform) sampleSelf sampleSite 1 sampleProcess).1
      = [ { function := "_start", filename := "[UNKNOWN]", lineno := 0 },
          { function := "main", filename := "main.cpp", lineno := 14 } ] ∧
    (getBacktrace0 (onStack samplePlatform) sampleSelf0 sampleSelf sampleSite sampleProcess).1
      = (getBacktraceAt (onStack samplePlatform) sampleSelf sampleSite 0 sampleProcess).1 := by
  refine ⟨?_, ?_, ?_, ?_⟩ <;> decide

/-- C5, amended: for `0 <= skip < INT_MAX`, `getBacktrace(skip)` makes one call
of `backtrace_full`, with depth `skip + 1`, and returns what that walk yields. On
a walker that starts a native stack at the requested depth, the result is a
function of the stack beyond its innermost `skip + 1` entries (the first being
the frame of the walk itself) and of nothing else of the stack. The overload
`getBacktrace()` is the call `getBacktrace(1)` made from inside its own frame: it
asks the walker for depth 2, and called at a call site it returns the frames of
the stack of that call site, which is what `getBacktrace(0)` called at the same
call site returns. -/
theorem getBacktrace_starts_at_skip_succ (P : Platform) (skip : Int) (s : Process)
    (h0 : 0 ≤ skip) (h1 : skip < INT_MAX) :
    (getBacktrace P skip s).2.calls = s.calls ++ [PlatformCall.full s.state (skip + 1)] ∧
    (getBacktrace P skip s).1
      = (keptFrames P (walkedFrames (P.backtrace_full s.calls s.state (skip + 1)))).reverse ∧
    (∀ inner outer : List RawFrame, inner.length = skip.toNat + 1 →
      (getBacktrace (onStack P (inner ++ outer)) skip s).1 = (keptFrames P outer).reverse) ∧
    (∀ inner inner2 outer : List RawFrame,
      inner.length = skip.toNat + 1 → inner2.length = skip.toNat + 1 →
      (getBacktrace (onStack P (inner ++ outer)) skip s).1
        = (getBacktrace (onStack P (inner2 ++ outer)) skip s).1) ∧
    (∀ (W : List RawFrame → Platform) (self0 self : RawFrame) (site : List RawFrame),
      getBacktrace0 W self0 self site s = getBacktraceAt W self (self0 :: site) 1 s ∧
      (getBacktrace0 W self0 self site s).2.calls
        = s.calls ++ [PlatformCall.full s.state 2]) ∧
    (∀ (self0 self : RawFrame) (site : List RawFrame),
      (getBacktrace0 (onStack P) self0 self site s).1 = (keptFrames P site).reverse ∧
      (getBacktrace0 (onStack P) self0 self site s).1
        = (getBacktraceAt (onStack P) self site 0 s).1) := by
  have hin : ∀ inner outer : List RawFrame, inner.length = skip.toNat + 1 →
      (getBacktrace (onStack P (inner ++ outer)) skip s).1 = (keptFrames P outer).reverse := by
    intro inner outer hlen
    rw [getBacktrace_onStack P _ skip s h0 h1, ← hlen, List.drop_left]
  have h11 : int_add 1 1 = 2 := by decide
  have hover : ∀ (self0 self : RawFrame) (site : List RawFrame),
      (getBacktrace0 (onStack P) self0 self site s).1 = (keptFrames P site).reverse := by
    intro self0 self site
    show (getBacktrace (onStack P (self :: self0 :: site)) 1 s).1 = _
    rw [getBacktrace_onStack P _ 1 s (by decide) (by decide)]
    rfl
  have hzero : ∀ (self : RawFrame) (site : List RawFrame),
      (getBacktraceAt (onStack P) self site 0 s).1 = (keptFrames P site).reverse := by
    intro self site
    show (getBacktrace (onStack P (self :: site)) 0 s).1 = _
    rw [getBacktrace_onStack P _ 0 s (by decide) (by decide)]
    rfl
  refine ⟨?_, ?_, hin, ?_, ?_, ?_⟩
  · simp [getBacktrace, deliver_snd, int_add_one skip h0 h1]
  · rw [getBacktrace_fst, eventsOf, int_add_one skip h0 h1]
  · intro inner inner2 outer hl hl2
    rw [hin inner outer hl, hin inner2 outer hl2]
  · intro W self0 self site
    refine ⟨rfl, ?_⟩
    simp [getBacktrace0, getBacktraceAt, getBacktrace, deliver_snd, h11]
  · intro self0 self site
    exact ⟨hover self0 self site, by rw [hover self0 self site, hzero self site]⟩

/-- C5, amended, on the sample stack: with skip 1 the walker is asked for depth
2, and the frames of `getBacktrace` and of `C()` are not in the result; the
overload called inside `C()` returns the three frames `getBacktrace(0)` returns
there. -/
theorem getBacktrace_starts_at_skip_succ_witness :
    (getBacktrace samplePlatform 1 sampleProcess).2.calls = [PlatformCall.full (some 1) 2] ∧
    (getBacktrace samplePlatform 1 sampleProcess).1
      = [ { function := "_start", filename := "[UNKNOWN]", lineno := 0 },
          { function := "main", filename := "main.cpp", lineno := 14 } ] ∧
    (getBacktraceAt (onStack samplePlatform) sampleSelf sampleSite 0 sampleProcess).1
      = [ { function := "_start", filename := "[UNKNOWN]", lineno := 0 },
          { function := "main", filename := "main.cpp", lineno := 14 },
          { function := "C()", filename := "main.cpp", lineno := 5 } ] ∧
    (getBacktrace0 (onStack samplePlatform) sampleSelf0 sampleSelf sampleSite sampleProcess).1
      = (getBacktraceAt (onStack samplePlatform) sampleSelf sampleSite 0 sampleProcess).1 :=
  ⟨by decide, by decide, by decide,
   ((getBacktrace_starts_at_skip_succ samplePlatform 1 sampleProcess
      (by decide) (by decide)).2.2.2.2.2 sampleSelf0 sampleSelf sampleSite).2⟩

/-! ## C6: one more skipped frame -/

theorem drop_of_getElem? (stack : List RawFrame) (k : Nat) (raw : RawFrame)
    (h : stack[k]? = some raw) : stack.drop k = raw :: stack.drop (k + 1) := by
  obtain ⟨hlt, hget⟩ := List.getElem?_eq_some.1 h
  rw [List.drop_eq_getElem_cons hlt, hget]

theorem keptFrames_cons (P : Platform) (raw : RawFrame) (rest : List RawFrame) :
    keptFrames P (raw :: rest) = (resolved P raw).toList ++ keptFrames P rest := by
  unfold keptFrames
  cases h : resolved P raw <;> simp [List.filterMap_cons, h]

/-- C6, as stated, fails: on the sample stack the raw frame at depth 2 has
neither function name nor filename, so `getBacktrace(2)` returns the same two
frames as `getBacktrace(1)`, not that list without its last frame. -/
theorem getBacktrace_skip_monotonicity_counterexample :
    ¬ ((getBacktrace samplePlatform 2 sampleProcess).1
        = (getBacktrace samplePlatform 1 sampleProcess).1.take
            ((getBacktrace samplePlatform 1 sampleProcess).1.length - 1)) ∧
    (getBacktrace samplePlatform 2 sampleProcess).1
      = (getBacktrace samplePlatform 1 sampleProcess).1 ∧
    (getBacktrace samplePlatform 1 sampleProcess).1.length = 2 := by
  refine ⟨?_, ?_, ?_⟩ <;> decide

/-- C6, amended: on a fixed native stack and session, for `1 <= k < INT_MAX`,
the result of `getBacktrace(k)` is a prefix of the result of `getBacktrace(k-1)`.
When the raw frame at depth `k` of the stack has a function name or a filename,
it is that list without its last frame (the one resolved from that raw frame);
when that raw frame has neither, or the stack has no frame at depth `k`, the two
results are equal. -/
theorem getBacktrace_skip_step (P : Platform) (stack : List RawFrame) (s : Process) (k : Nat)
    (hk : 1 ≤ k) (hmax : (k : Int) < INT_MAX) :
    (∃ t, (getBacktrace (onStack P stack) (k : Int) s).1 ++ t
        = (getBacktrace (onStack P stack) ((k : Int) - 1) s).1) ∧
    (∀ raw, stack[k]? = some raw → ¬ (raw.function = none ∧ raw.filename = none) →
      (getBacktrace (onStack P stack) (k : Int) s).1
        = (getBacktrace (onStack P stack) ((k : Int) - 1) s).1.take
            ((getBacktrace (onStack P stack) ((k : Int) - 1) s).1.length - 1) ∧
      (getBacktrace (onStack P stack) ((k : Int) - 1) s).1.length
        = (getBacktrace (onStack P stack) (k : Int) s).1.length + 1 ∧
      (getBacktrace (onStack P stack) ((k : Int) - 1) s).1.getLast? = resolved P raw) ∧
    (∀ raw, stack[k]? = some raw → (raw.function = none ∧ raw.filename = none) →
      (getBacktrace (onStack P stack) (k : Int) s).1
        = (getBacktrace (onStack P stack) ((k : Int) - 1) s).1) ∧
    (stack[k]? = none →
      (getBacktrace (onStack P stack) (k : Int) s).1 = [] ∧
      (getBacktrace (onStack P stack) ((k : Int) - 1) s).1 = []) := by
  have hmax2 : (k : Int) < 2147483647 := hmax
  have hA : (getBacktrace (onStack P stack) (k : Int) s).1
      = (keptFrames P (stack.drop (k + 1))).reverse := by
    rw [getBacktrace_onStack P stack (k : Int) s (by omega) hmax]
    simp
  have hB : (getBacktrace (onStack P stack) ((k : Int) - 1) s).1
      = (keptFrames P (stack.drop k)).reverse := by
    rw [getBacktrace_onStack P stack ((k : Int) - 1) s (by omega) (by unfold INT_MAX; omega)]
    have : ((k : Int) - 1).toNat + 1 = k := by omega
    rw [this]
  rw [hA, hB]
  have hsome : ∀ raw, stack[k]? = some raw →
      (keptFrames P (stack.drop k)).reverse
        = (keptFrames P (stack.drop (k + 1))).reverse ++ (resolved P raw).toList := by
    intro raw h
    rw [drop_of_getElem? stack k raw h, keptFrames_cons, List.reverse_append]
    cases resolved P raw <;> simp
  have hnone : stack[k]? = none →
      keptFrames P (stack.drop (k + 1)) = [] ∧ keptFrames P (stack.drop k) = [] := by
    intro h
    have hlen : stack.length ≤ k := List.getElem?_eq_none_iff.1 h
    rw [List.drop_eq_nil_of_le hlen, List.drop_eq_nil_of_le (Nat.le_succ_of_le hlen)]
    exact ⟨rfl, rfl⟩
  refine ⟨?_, ?_, ?_, ?_⟩
  · cases h : stack[k]? with
    | none =>
      obtain ⟨h1, h2⟩ := hnone h
      exact ⟨[], by rw [h1, h2]; rfl⟩
    | some raw => exact ⟨_, (hsome raw h).symm⟩
  · intro raw h hinfo
    have hi : hasInfo raw = true := by
      rcases raw with ⟨pc, fn, ln, fu⟩
      cases fn <;> cases fu <;> simp_all [hasInfo]
    rw [hsome raw h, resolved_some P raw hi]
    simp
  · intro raw h hinfo
    have hi : hasInfo raw = false := by
      rcases raw with ⟨pc, fn, ln, fu⟩
      cases fn <;> cases fu <;> simp_all [hasInfo]
    rw [hsome raw h, (resolved_eq_none_iff P raw).2 hi]
    simp
  · intro h
    obtain ⟨h1, h2⟩ := hnone h
    rw [h1, h2]
    exact ⟨rfl, rfl⟩

/-- C6, amended, on the sample stack: with `k = 1` the raw frame at depth 1 is
`C()`, and `getBacktrace(1)` is `getBacktrace(0)` without its last frame; with
`k = 2` the raw frame at depth 2 carries nothing and the two results agree. -/
theorem getBacktrace_skip_step_witness :
    (getBacktrace samplePlatform 0 sampleProcess).1
      = [ { function := "_start", filename := "[UNKNOWN]", lineno := 0 },
          { function := "main", filename := "main.cpp", lineno := 14 },
          { function := "C()", filename := "main.cpp", lineno := 5 } ] ∧
    (getBacktrace samplePlatform 1 sampleProcess).1
      = [ { function := "_start", filename := "[UNKNOWN]", lineno := 0 },
          { function := "main", filename := "main.cpp", lineno := 14 } ] ∧
    (getBacktrace (onStack samplePlatform sampleStack) ((1 : Nat) : Int) sampleProcess).1
      = (getBacktrace (onStack samplePlatform sampleStack) (((1 : Nat) : Int) - 1)
          sampleProcess).1.take
          ((getBacktrace (onStack samplePlatform sampleStack) (((1 : Nat) : Int) - 1)
            sampleProcess).1.length - 1) :=
  ⟨by decide, by decide,
   ((getBacktrace_skip_step samplePlatform sampleStack sampleProcess 1
      (by decide) (by decide)).2.1
        { pc := 4198800, filename := some "main.cpp", lineno := 5, function := some "_Z1Cv" }
        (by decide) (by decide)).1⟩

end Backtrace
